import Mathlib

/-!
# Verification of the minio-js credential subsystem

Shallow embedding of the credential-provider core of the repository:
the credential data model (`ICredentials`, `SignatureType`,
`AnonymousCredentials`), the expiry tracker (`Expiry`), the environment
providers (`EnvMinio`, `EnvAWS`), the metadata-service endpoint
resolution (`getEndpoint`) and retrieval (`IAMCredentials.retrieve`),
the provider chain (`ChainCredentials`), and the credential cache
(`Credentials`).

JavaScript conventions are made explicit:
* machine time is `Int` (epoch milliseconds, as produced by `Date.now()`);
* a possibly-undefined string (an absent `process.env` entry read without
  a destructuring default) is `Option String`, with `none` for
  `undefined`;
* a promise is modelled by its eventual resolution `Except ε ICredentials`
  (`ε` the rejection type); a method with no `return` statement returns
  `none` (JS `undefined`);
* template-literal interpolation stringifies `undefined` as `"undefined"`.
-/

/-- `SignatureType` enum from the index module.  `V4 = "S3v4"`,
`Anonymous` signifies no signature.  (The commented-out `V2` and
`V4Streaming` members are not implemented in the source.) -/
inductive SignatureType where
  | V4
  | Anonymous
deriving DecidableEq, Repr

/-- `ICredentials` from the index module: access key, secret key, optional
session token, signature type. -/
structure ICredentials where
  accessKey : String
  secretKey : String
  sessionToken : Option String := none
  signerType : SignatureType
deriving DecidableEq, Repr

/-- `AnonymousCredentials` constant: `{accessKey: "", secretKey: "",
signerType: SignatureType.Anonymous}` (no `sessionToken` field). -/
def AnonymousCredentials : ICredentials :=
  { accessKey := "", secretKey := "", sessionToken := none,
    signerType := SignatureType.Anonymous }

/-! ## Expiry tracker (`class Expiry` in the credentials module) -/

/-- `Expiry`: holds an absolute expiration instant in epoch milliseconds.
The constructor default is `Date.now()`, i.e. the instant of construction. -/
structure Expiry where
  expiration : Int
deriving DecidableEq, Repr

/-- `Expiry.setExpiration(expiration, window)`:
`this.expiration = window > 0 ? expiration - window : expiration`. -/
def Expiry.setExpiration (e : Expiry) (expiration window : Int) : Expiry :=
  { e with expiration := if window > 0 then expiration - window else expiration }

/-- `Expiry.isExpired()`: `Date.now() > this.expiration`.  The current
instant is passed explicitly. -/
def Expiry.isExpired (e : Expiry) (now : Int) : Bool :=
  now > e.expiration

/-! ## Environment providers (`EnvMinio`, `EnvAWS`)

Environment reads are injected: each destructured variable is a parameter.
`MINIO_*` and `AWS_*` string variables are destructured with default `""`
in the source, so they are plain `String` parameters here;
`AWS_SESSION_TOKEN` is destructured without a default, hence
`Option String`. -/

/-- `EnvMinio.retrieve()`: builds the credential from `MINIO_ACCESS_KEY`
and `MINIO_SECRET_KEY` (absent defaults to `""`), with
`signerType = Anonymous` when either variable is empty, and sets the
`retrieved` flag (second component) to `true`. -/
def EnvMinio.retrieve (MINIO_ACCESS_KEY MINIO_SECRET_KEY : String) :
    ICredentials × Bool :=
  ({ accessKey := MINIO_ACCESS_KEY,
     secretKey := MINIO_SECRET_KEY,
     sessionToken := none,
     signerType :=
       if MINIO_ACCESS_KEY = "" || MINIO_SECRET_KEY = "" then
         SignatureType.Anonymous
       else SignatureType.V4 }, true)

/-- `EnvAWS.retrieve()`: access key is the first non-empty of
`AWS_ACCESS_KEY_ID`/`AWS_ACCESS_KEY`, secret key the first non-empty of
`AWS_SECRET_ACCESS_KEY`/`AWS_SECRET_KEY`.  The source's signer-type test
is literally `accessKey == "" || accessKey == ""` (it repeats `accessKey`
and never inspects `secretKey`); the embedding reproduces that.  Second
component is the `retrieved` flag. -/
def EnvAWS.retrieve (AWS_ACCESS_KEY_ID AWS_ACCESS_KEY
    AWS_SECRET_ACCESS_KEY AWS_SECRET_KEY : String)
    (AWS_SESSION_TOKEN : Option String) : ICredentials × Bool :=
  let accessKey :=
    if AWS_ACCESS_KEY_ID = "" then AWS_ACCESS_KEY else AWS_ACCESS_KEY_ID
  let secretKey :=
    if AWS_SECRET_ACCESS_KEY = "" then AWS_SECRET_KEY else AWS_SECRET_ACCESS_KEY
  ({ accessKey := accessKey,
     secretKey := secretKey,
     sessionToken := AWS_SESSION_TOKEN,
     signerType :=
       if accessKey = "" || accessKey = "" then
         SignatureType.Anonymous
       else SignatureType.V4 }, true)

/-! ## Metadata-service endpoint resolution (`getEndpoint`) -/

def defaultIAMRoleEndpoint : String := "http://169.254.169.254"

def defaultECSRoleEndpoint : String := "http://169.254.170.2"

/-- JavaScript template-literal interpolation of a possibly-undefined
string: `undefined` prints as `"undefined"`. -/
def jsInterp : Option String → String
  | none => "undefined"
  | some s => s

/-- `getEndpoint(endpoint = "")`: the source destructures
`AWS_CONTAINER_CREDENTIALS_RELATIVE_URI` from `process.env` WITHOUT a
default, so an absent variable is `undefined` (`none` here), and
`isEcsTask = ecsURI !== ""` is `true` in that case.  When no explicit
endpoint is given and `isEcsTask` holds, the target is the template
literal `` `${defaultECSRoleEndpoint}${ecsURI}` ``. -/
def getEndpoint (endpoint : String) (ecsURI : Option String) : String × Bool :=
  let isEcsTask := ecsURI != some ""
  if endpoint != "" then (endpoint, isEcsTask)
  else if isEcsTask then (defaultECSRoleEndpoint ++ jsInterp ecsURI, isEcsTask)
  else (defaultIAMRoleEndpoint, false)

/-! ## Metadata-service credential retrieval (`IAMCredentials`) -/

/-- Default expiry window: `1000 * 10` ms (10 secs). -/
def DefaultExpiryWindow : Int := 1000 * 10

/-- `IEc2RoleCredRespBody`, the shape of the credential document.  The
fields the source marks as error-state or unused (`Code`, `Message`,
`LastUpdated`, `Type`) are never read by `retrieve` and are omitted. -/
structure IEc2RoleCredRespBody where
  Expiration : String
  AccessKeyID : String
  SecretAccessKey : String
  Token : String
deriving DecidableEq, Repr

/-- `IAMCredentials.retrieve()`.  `fetched` is the resolution of the
`roleCreds` promise (the one or two chained HTTP calls); `parseDate s`
stands for `new Date(s).getTime()`.  The source attaches a `.then`
continuation that, on success, updates `this.expiry` with the parsed
`Expiration` and the 10-second window and then constructs the object
`{accessKey: cred.AccessKeyID, secretKey: cred.SecretAccessKey,
sessionToken: cred.Token}` — but the method body contains no `return`
statement and the `.then` chain is never returned, so the caller always
receives `undefined` (`none`) and the constructed object (which also
carries no `signerType` field) is discarded.  Result: (value returned to
the caller, expiry tracker after the fetch settles). -/
def IAMCredentials.retrieve {ε : Type} (parseDate : String → Int)
    (fetched : Except ε IEc2RoleCredRespBody) (expiry : Expiry) :
    Option ICredentials × Expiry :=
  match fetched with
  | .error _ => (none, expiry)
  | .ok cred =>
      (none, expiry.setExpiration (parseDate cred.Expiration) DefaultExpiryWindow)

/-- Modelled from the spec (section 4.3 step 5, absent from the source
because `IAMCredentials.retrieve` discards its result): the credential
value a correct retrieval returns for a fetched document —
`{accessKey: AccessKeyID, secretKey: SecretAccessKey, sessionToken: Token,
signatureKind: Versioned}`. -/
def specIAMCredentialValue (cred : IEc2RoleCredRespBody) : ICredentials :=
  { accessKey := cred.AccessKeyID,
    secretKey := cred.SecretAccessKey,
    sessionToken := some cred.Token,
    signerType := SignatureType.V4 }

/-! ## Chain resolver (`ChainCredentials`)

A provider, as the chain observes it in one `retrieve()` pass, is the
resolution of its `retrieve()` promise plus its `isExpired()` answer. -/

/-- One provider as seen by the chain: the resolution of `retrieve()`
(`ε` is the rejection type) and the `isExpired()` answer. -/
structure ChainProvider (ε : Type) where
  retrieveResult : Except ε ICredentials
  isExpired : Bool

/-- Is this provider's result a success with empty access and secret keys
(the chain's skip condition `cred.accessKey === "" && cred.secretKey === ""`)?
The source also guards `!cred`, unreachable under the declared
`Promise<ICredentials>` type. -/
def ChainProvider.isEmptyOk {ε : Type} (p : ChainProvider ε) : Bool :=
  match p.retrieveResult with
  | .ok cred => cred.accessKey == "" && cred.secretKey == ""
  | .error _ => false

/-- `ChainCredentials._retrieve(index)`, instrumented with the list of
provider indices whose `retrieve()` is invoked.  The source recursion
walks `this.providers[index..]` by incrementing `index`; it is embedded
as structural recursion on that suffix, with `index` carried along for
the trace (the first argument is `providers.drop index`).
`index >= providers.length` (the suffix is empty) resolves to
`AnonymousCredentials`; a rejection propagates (no further provider is
tried); an empty-credential success recurses at `index + 1`; any other
success resolves to it. -/
def chainRetrieveFrom {ε : Type} :
    List (ChainProvider ε) → Nat → Except ε ICredentials × List Nat
  | [], _ => (.ok AnonymousCredentials, [])
  | p :: rest, index =>
    match p.retrieveResult with
    | .error e => (.error e, [index])
    | .ok cred =>
        if cred.accessKey == "" && cred.secretKey == "" then
          let r := chainRetrieveFrom rest (index + 1)
          (r.1, index :: r.2)
        else (.ok cred, [index])

/-- `ChainCredentials` state: the provider list (fixed at construction)
and the `curr?: IProvider` field (the provider for `isExpired`
delegation), `none` initially. -/
structure ChainCredentials (ε : Type) where
  providers : List (ChainProvider ε)
  curr : Option (ChainProvider ε) := none

/-- `ChainCredentials.retrieve()`: runs `_retrieve(0)`.  The source's
`_retrieve` assigns no field — in particular it never sets `this.curr` —
so the state comes back unchanged. -/
def ChainCredentials.retrieve {ε : Type} (c : ChainCredentials ε) :
    (Except ε ICredentials × List Nat) × ChainCredentials ε :=
  (chainRetrieveFrom c.providers 0, c)

/-- `ChainCredentials.isExpired()`: `true` when `curr` is unset, else
delegates to `curr.isExpired()`. -/
def ChainCredentials.isExpired {ε : Type} (c : ChainCredentials ε) : Bool :=
  match c.curr with
  | none => true
  | some p => p.isExpired

/-! ## Credential cache (`Credentials`)

`get()` is synchronous: it checks `isExpired()`, and if so stores the
promise returned by `provider.retrieve()` into `this.creds` and clears
`forceRefresh`, then returns `this.creds!`.  A promise is modelled by its
eventual resolution.  The wrapped provider is modelled by two functions of
the number of `retrieve()` calls issued so far: `retrieveResults k` is the
resolution of the `k`-th retrieval's promise, and `isExpiredAfter k` is
what `provider.isExpired()` answers once `k` retrievals have been issued
(for a provider whose expiry tracker updates only when a fetch completes,
`isExpiredAfter` stays `true` while the fetch is pending). -/

/-- The wrapped provider, as the cache observes it along one deterministic
run. -/
structure CacheProvider (ε : Type) where
  retrieveResults : Nat → Except ε ICredentials
  isExpiredAfter : Nat → Bool

/-- Cache state: `creds` is the stored promise (by its resolution;
`none` = the field is still `undefined`), `forceRefresh` the flag, and
`retrieveCount` counts the `provider.retrieve()` calls issued. -/
structure CredState (ε : Type) where
  creds : Option (Except ε ICredentials)
  forceRefresh : Bool
  retrieveCount : Nat

/-- `new Credentials(provider)` with the default `forceRefresh = true`:
no stored promise, flag set, no retrieval issued yet. -/
def Credentials.init {ε : Type} : CredState ε :=
  { creds := none, forceRefresh := true, retrieveCount := 0 }

/-- `Credentials.isExpired()`: `this.forceRefresh || this.provider.isExpired()`. -/
def Credentials.isExpired {ε : Type} (p : CacheProvider ε)
    (s : CredState ε) : Bool :=
  s.forceRefresh || p.isExpiredAfter s.retrieveCount

/-- `Credentials.get()`: if expired, store the promise of a fresh
`provider.retrieve()` and clear `forceRefresh`; return `this.creds!`
(which is the fresh promise in that branch, the previously stored one —
possibly still `undefined` — otherwise). -/
def Credentials.get {ε : Type} (p : CacheProvider ε) (s : CredState ε) :
    Option (Except ε ICredentials) × CredState ε :=
  if Credentials.isExpired p s then
    let r := p.retrieveResults s.retrieveCount
    (some r,
     { creds := some r, forceRefresh := false,
       retrieveCount := s.retrieveCount + 1 })
  else (s.creds, s)

/-- `Credentials.expire()`: sets `forceRefresh`. -/
def Credentials.expire {ε : Type} (s : CredState ε) : CredState ε :=
  { s with forceRefresh := true }

/-! ## Concrete fixtures used by the theorems -/

/-- Sample credential document as served by a metadata endpoint. -/
def iamDoc : IEc2RoleCredRespBody :=
  { Expiration := "2030-01-01T00:00:00Z", AccessKeyID := "X",
    SecretAccessKey := "Y", Token := "Z" }

/-! ## Theorems -/

/-- C6, counterexample: with `expirationInstant = 10000` and
`windowDuration = 10000`, the instant `now = 0 = T - 10000` satisfies
`now ≥ T - 10000`, yet `isExpired` (which tests the strict
`Date.now() > this.expiration`) reports NOT expired — refuting the
claim that the boundary instant counts as expired. -/
theorem expiry_boundary_not_expired :
    (Expiry.setExpiration { expiration := 0 } 10000 10000).isExpired 0 = false ∧
    (0 : Int) ≥ 10000 - 10000 := by
  constructor
  · decide
  · decide

/-- C6 (amended): for an Expiry set with `expirationInstant = T` and
`windowDuration = 10000`, `isExpired` reports expired exactly when
`now > T - 10000` (strict comparison): the boundary instant
`now = T - 10000` counts as NOT expired. -/
theorem expiry_window_strict_boundary (e : Expiry) (T now : Int) :
    (e.setExpiration T 10000).isExpired now = true ↔ now > T - 10000 := by
  simp [Expiry.setExpiration, Expiry.isExpired]

/-- C4: evaluating `getEndpoint` with no explicit endpoint.  When the
ECS relative-URI environment variable is ABSENT (`none`), the code
computes `isEcsTask = (undefined !== "") = true` and targets the
task-metadata base concatenated with the string `"undefined"` — i.e. it
goes to ECS-task mode, not to the default instance-metadata base as the
claim states.  Only the present-but-EMPTY variable yields EC2-instance
mode, and a present non-empty URI behaves as claimed. -/
theorem getEndpoint_absent_env_goes_ecs :
    getEndpoint "" none = ("http://169.254.170.2undefined", true) ∧
    getEndpoint "" (some "") = ("http://169.254.169.254", false) ∧
    getEndpoint "" (some "/v2/creds") = ("http://169.254.170.2/v2/creds", true) := by
  refine ⟨rfl, rfl, rfl⟩

/-- C2: evaluating `IAMCredentials.retrieve` on a successfully fetched
credential document.  The expiry tracker IS updated (to the parsed
expiration minus the 10-second window), but the caller receives
`none` (JS `undefined`) because the method never returns the mapped
credential — the value the spec requires (`specIAMCredentialValue`,
with signature kind Versioned) is computed inside the un-returned
`.then` and discarded. -/
theorem iam_retrieve_discards_value :
    IAMCredentials.retrieve (fun _ => 1893456000000)
        (Except.ok iamDoc : Except String IEc2RoleCredRespBody)
        { expiration := 0 } =
      (none, { expiration := 1893455990000 }) ∧
    specIAMCredentialValue iamDoc =
      { accessKey := "X", secretKey := "Y", sessionToken := some "Z",
        signerType := SignatureType.V4 } := by
  refine ⟨rfl, rfl⟩

/-- C9: a Credential Cache constructed with the default arguments starts
with `forceRefresh = true`, so the very first `get()` — for EVERY wrapped
provider, in particular one whose `isExpired()` is false from the start —
invokes `provider.retrieve()`: it returns the fresh first retrieval and
stores it, with the retrieval counter at 1. -/
theorem cache_first_get_always_retrieves {ε : Type} (p : CacheProvider ε) :
    Credentials.get p Credentials.init =
      (some (p.retrieveResults 0),
       { creds := some (p.retrieveResults 0), forceRefresh := false,
         retrieveCount := 1 }) := by
  simp [Credentials.get, Credentials.isExpired, Credentials.init]

/-- C10: the minio environment provider yields an Anonymous signature
kind exactly when either MINIO variable is empty (absent reads as empty),
while the generic cloud provider's signature kind is determined by the
resolved access key alone — it equals
`if resolvedAccessKey = "" then Anonymous else V4` and is unchanged under
any variation of the secret-key variables and session token (the source
tests `accessKey == "" || accessKey == ""`, never the secret key). -/
theorem env_signature_kind_rules (a s ip il sp sl sp' sl' : String)
    (t t' : Option String) :
    ((EnvMinio.retrieve a s).1.signerType = SignatureType.Anonymous ↔
      (a = "" ∨ s = "")) ∧
    (EnvAWS.retrieve ip il sp sl t).1.signerType =
      (if (if ip = "" then il else ip) = "" then SignatureType.Anonymous
       else SignatureType.V4) ∧
    (EnvAWS.retrieve ip il sp sl t).1.signerType =
      (EnvAWS.retrieve ip il sp' sl' t').1.signerType := by
  refine ⟨?_, ?_, rfl⟩
  · simp [EnvMinio.retrieve]
    tauto
  · simp [EnvAWS.retrieve]

/-! ### C1 — failed refresh and the cached state -/

/-- Static-looking credential value used in the cache scenarios. -/
def credStatic : ICredentials :=
  { accessKey := "AK", secretKey := "SK", sessionToken := none,
    signerType := SignatureType.V4 }

/-- Wrapped provider whose first retrieval succeeds with `credStatic`,
whose second retrieval fails, and which reports not-expired throughout
(e.g. a provider whose own expiry opinion stays fresh). -/
def failingRefreshProvider : CacheProvider String :=
  { retrieveResults := fun k =>
      if k = 0 then Except.ok credStatic else Except.error "TransportError",
    isExpiredAfter := fun _ => false }

/-- C1, counterexample: first `get()` caches a successful value; after
`expire()`, the next `get()` hits the failing retrieval — and the cached
state is NOT left untouched: the stored resolution becomes the rejection,
and a further `get()` returns that rejection, not the previously cached
successful value (no retry happens either, since `forceRefresh` was
cleared and the provider reports not-expired). -/
theorem cache_failed_refresh_updates_cache_cex :
    ((Credentials.get failingRefreshProvider Credentials.init).2.creds =
       some (Except.ok credStatic)) ∧
    ((Credentials.get failingRefreshProvider
        (Credentials.expire
          (Credentials.get failingRefreshProvider Credentials.init).2)).2.creds =
       some (Except.error "TransportError")) ∧
    ((Credentials.get failingRefreshProvider
        (Credentials.get failingRefreshProvider
          (Credentials.expire
            (Credentials.get failingRefreshProvider Credentials.init).2)).2).1 =
       some (Except.error "TransportError")) ∧
    some (Except.error ("TransportError" : String)) ≠ some (Except.ok credStatic) := by
  refine ⟨rfl, rfl, rfl, ?_⟩
  simp

/-- C1 (amended): when a `get()` triggers a retrieval that fails, the
failure propagates to the caller AND the cached state is updated: the
rejected resolution replaces whatever was cached before and the
force-refresh flag is cleared; as long as the wrapped provider then
reports not-expired, subsequent `get()` calls return the failed
resolution rather than the prior value (a retry happens only once the
provider reports expired again, or after `expire()`). -/
theorem cache_failed_refresh_overwrites {ε : Type} (p : CacheProvider ε)
    (s : CredState ε) (e : ε)
    (hexp : Credentials.isExpired p s = true)
    (herr : p.retrieveResults s.retrieveCount = Except.error e) :
    Credentials.get p s =
      (some (Except.error e),
       { creds := some (Except.error e), forceRefresh := false,
         retrieveCount := s.retrieveCount + 1 }) ∧
    (p.isExpiredAfter (s.retrieveCount + 1) = false →
       (Credentials.get p (Credentials.get p s).2).1 = some (Except.error e)) := by
  have h1 : Credentials.get p s =
      (some (Except.error e),
       { creds := some (Except.error e), forceRefresh := false,
         retrieveCount := s.retrieveCount + 1 }) := by
    simp [Credentials.get, hexp, herr]
  refine ⟨h1, fun hnot => ?_⟩
  rw [h1]
  simp [Credentials.get, Credentials.isExpired, hnot]

/-- C1, witness for the amended theorem: the state after a successful
first retrieval that was then force-expired. -/
theorem cache_failed_refresh_overwrites_witness :
    (Credentials.isExpired failingRefreshProvider
       { creds := some (Except.ok credStatic), forceRefresh := true,
         retrieveCount := 1 } = true) ∧
    (failingRefreshProvider.retrieveResults 1 = Except.error "TransportError") ∧
    (Credentials.get failingRefreshProvider
       { creds := some (Except.ok credStatic), forceRefresh := true,
         retrieveCount := 1 } =
       (some (Except.error "TransportError"),
        { creds := some (Except.error "TransportError"), forceRefresh := false,
          retrieveCount := 2 }) ∧
     (failingRefreshProvider.isExpiredAfter 2 = false →
        (Credentials.get failingRefreshProvider
          (Credentials.get failingRefreshProvider
            { creds := some (Except.ok credStatic), forceRefresh := true,
              retrieveCount := 1 }).2).1 =
          some (Except.error "TransportError"))) :=
  ⟨rfl, rfl,
   cache_failed_refresh_overwrites failingRefreshProvider
     { creds := some (Except.ok credStatic), forceRefresh := true,
       retrieveCount := 1 } "TransportError" rfl rfl⟩

/-! ### C5 — concurrent `get()` during a pending refresh -/

/-- Wrapped provider standing for a metadata provider whose expiry
tracker is initialized to "now" and is only updated when a fetch
completes: while fetches are pending, `isExpired()` stays true.  Its
first two retrievals resolve to different values. -/
def stillExpiredProvider : CacheProvider String :=
  { retrieveResults := fun k =>
      if k = 0 then
        Except.ok { accessKey := "AK1", secretKey := "SK1",
                    sessionToken := none, signerType := SignatureType.V4 }
      else
        Except.ok { accessKey := "AK2", secretKey := "SK2",
                    sessionToken := none, signerType := SignatureType.V4 },
    isExpiredAfter := fun _ => true }

/-- C5, counterexample: a second `get()` issued while the refresh started
by the first is still pending (so the wrapped provider still reports
expired) triggers a SECOND retrieval: the two calls resolve to different
values, and two fetches have been put in flight for the same expired
state — refuting both halves of the claim. -/
theorem cache_pending_duplicate_fetch_cex :
    ((Credentials.get stillExpiredProvider Credentials.init).1 =
       some (Except.ok { accessKey := "AK1", secretKey := "SK1",
                         sessionToken := none, signerType := SignatureType.V4 })) ∧
    ((Credentials.get stillExpiredProvider
        (Credentials.get stillExpiredProvider Credentials.init).2).1 =
       some (Except.ok { accessKey := "AK2", secretKey := "SK2",
                         sessionToken := none, signerType := SignatureType.V4 })) ∧
    ((Credentials.get stillExpiredProvider Credentials.init).1 ≠
       (Credentials.get stillExpiredProvider
         (Credentials.get stillExpiredProvider Credentials.init).2).1) ∧
    ((Credentials.get stillExpiredProvider
        (Credentials.get stillExpiredProvider Credentials.init).2).2.retrieveCount = 2) := by
  refine ⟨rfl, rfl, ?_, rfl⟩
  intro h
  simp [Credentials.get, Credentials.isExpired, Credentials.init,
    stillExpiredProvider] at h

/-- C5 (amended): the cache shares a pending resolution only through its
`isExpired()` test.  For any state with the force-refresh flag cleared
(as it is right after a `get()` that started a refresh): if the wrapped
provider reports not-expired, a further `get()` is served exactly the
stored resolution and issues no new retrieval; but if the provider still
reports expired (as a metadata provider does while its refresh is
pending), the further `get()` issues an independent retrieval — there is
no dedicated in-flight gate. -/
theorem cache_pending_share_iff_not_expired {ε : Type} (p : CacheProvider ε)
    (s : CredState ε) (hfr : s.forceRefresh = false) :
    (p.isExpiredAfter s.retrieveCount = false →
       Credentials.get p s = (s.creds, s)) ∧
    (p.isExpiredAfter s.retrieveCount = true →
       (Credentials.get p s).2.retrieveCount = s.retrieveCount + 1) := by
  constructor
  · intro h
    simp [Credentials.get, Credentials.isExpired, hfr, h]
  · intro h
    simp [Credentials.get, Credentials.isExpired, hfr, h]

/-- C5, witness for the amended theorem at the state reached after one
`get()` on the still-expired provider. -/
theorem cache_pending_share_iff_not_expired_witness :
    ((Credentials.get stillExpiredProvider Credentials.init).2.forceRefresh = false) ∧
    ((stillExpiredProvider.isExpiredAfter
        (Credentials.get stillExpiredProvider Credentials.init).2.retrieveCount = false →
       Credentials.get stillExpiredProvider
           (Credentials.get stillExpiredProvider Credentials.init).2 =
         ((Credentials.get stillExpiredProvider Credentials.init).2.creds,
          (Credentials.get stillExpiredProvider Credentials.init).2)) ∧
     (stillExpiredProvider.isExpiredAfter
        (Credentials.get stillExpiredProvider Credentials.init).2.retrieveCount = true →
       (Credentials.get stillExpiredProvider
           (Credentials.get stillExpiredProvider Credentials.init).2).2.retrieveCount =
         (Credentials.get stillExpiredProvider Credentials.init).2.retrieveCount + 1)) :=
  ⟨rfl,
   cache_pending_share_iff_not_expired stillExpiredProvider
     (Credentials.get stillExpiredProvider Credentials.init).2 rfl⟩

/-! ### C3 — the chain's current-provider back-reference -/

/-- Chain with a single provider that succeeds with non-empty credentials
and reports not-expired. -/
def chainSatisfied : ChainCredentials String :=
  { providers :=
      [ { retrieveResult := Except.ok credStatic, isExpired := false } ] }

/-- C3: the provider at index 0 satisfies the `retrieve()` call with a
non-empty credential success, yet the resolver does NOT record it as
current — the source never assigns `this.curr` — so the subsequent
`isExpired()` returns `true` instead of delegating to the satisfying
provider (whose own `isExpired()` is `false`). -/
theorem chain_curr_never_recorded :
    ((ChainCredentials.retrieve chainSatisfied).1.1 = Except.ok credStatic) ∧
    ((chainSatisfied.providers.get ⟨0, by decide⟩).isExpired = false) ∧
    ((ChainCredentials.retrieve chainSatisfied).2.curr = none) ∧
    ((ChainCredentials.retrieve chainSatisfied).2.isExpired = true) :=
  ⟨rfl, rfl, rfl, rfl⟩

/-! ### C7 / C8 — chain traversal lemmas -/

/-- Helper: when every provider in the suffix yields an empty-credential
success, the traversal visits them all and resolves to the anonymous
constant. -/
theorem chainRetrieveFrom_all_empty {ε : Type} :
    ∀ (ps : List (ChainProvider ε)) (index : Nat),
      ps.all (fun p => p.isEmptyOk) = true →
      chainRetrieveFrom ps index =
        (Except.ok AnonymousCredentials, List.range' index ps.length)
  | [], index, _ => by simp [chainRetrieveFrom, List.range']
  | p :: rest, index, hall => by
      simp only [List.all_cons, Bool.and_eq_true] at hall
      obtain ⟨hp, hrest⟩ := hall
      cases hres : p.retrieveResult with
      | error e =>
          simp [ChainProvider.isEmptyOk, hres] at hp
      | ok cred =>
          have hp2 : cred.accessKey = "" ∧ cred.secretKey = "" := by
            simpa [ChainProvider.isEmptyOk, hres] using hp
          have ih := chainRetrieveFrom_all_empty rest (index + 1) hrest
          simp [chainRetrieveFrom, hres, hp2.1, hp2.2, ih, List.range']

/-- Helper: when providers at indices `index, index+1, …` yield
empty-credential successes up to relative position `i`, where the
provider rejects with `e`, the traversal stops there: it propagates `e`
and invokes exactly the providers at relative positions `0…i`. -/
theorem chainRetrieveFrom_first_error {ε : Type} :
    ∀ (ps : List (ChainProvider ε)) (index i : Nat) (e : ε)
      (hi : i < ps.length),
      (ps.take i).all (fun p => p.isEmptyOk) = true →
      (ps.get ⟨i, hi⟩).retrieveResult = Except.error e →
      chainRetrieveFrom ps index = (Except.error e, List.range' index (i + 1))
  | [], _, i, e, hi, _, _ => absurd hi (by simp)
  | p :: rest, index, 0, e, hi, _, herr => by
      rw [List.get] at herr
      simp [chainRetrieveFrom, herr, List.range']
  | p :: rest, index, i + 1, e, hi, hemp, herr => by
      rw [List.take_succ_cons, List.all_cons, Bool.and_eq_true] at hemp
      obtain ⟨hp, hrest⟩ := hemp
      rw [List.get] at herr
      cases hres : p.retrieveResult with
      | error e2 =>
          simp [ChainProvider.isEmptyOk, hres] at hp
      | ok cred =>
          have hp2 : cred.accessKey = "" ∧ cred.secretKey = "" := by
            simpa [ChainProvider.isEmptyOk, hres] using hp
          have ih := chainRetrieveFrom_first_error rest (index + 1) i e
            (by simpa using Nat.lt_of_succ_lt_succ hi) hrest herr
          simp [chainRetrieveFrom, hres, hp2.1, hp2.2, ih, List.range']

/-- C7: if every provider before index `i` returns an empty-credential
success (the only condition under which the chain advances) and the
provider at index `i` rejects with error `e`, then the chain's
`retrieve()` rejects with exactly `e`, and the invocation trace is
`[0, …, i]` — no provider at an index greater than `i` is ever invoked. -/
theorem chain_first_failure_propagates {ε : Type} (ps : List (ChainProvider ε))
    (i : Nat) (e : ε) (hi : i < ps.length)
    (hemp : (ps.take i).all (fun p => p.isEmptyOk) = true)
    (herr : (ps.get ⟨i, hi⟩).retrieveResult = Except.error e) :
    (ChainCredentials.retrieve { providers := ps }).1 =
      (Except.error e, List.range (i + 1)) := by
  have h := chainRetrieveFrom_first_error ps 0 i e hi hemp herr
  simpa [ChainCredentials.retrieve, List.range_eq_range'] using h

/-- C7, concrete chain: an empty-credential provider, then a failing one,
then one that must never be reached. -/
def chainFailing : List (ChainProvider String) :=
  [ { retrieveResult :=
        Except.ok { accessKey := "", secretKey := "", sessionToken := none,
                    signerType := SignatureType.V4 },
      isExpired := false },
    { retrieveResult := Except.error "TransportError", isExpired := true },
    { retrieveResult :=
        Except.ok { accessKey := "NEVER", secretKey := "REACHED",
                    sessionToken := none, signerType := SignatureType.V4 },
      isExpired := false } ]

/-- C7, witness: on `chainFailing` the failure of the provider at index 1
propagates and only indices 0 and 1 are invoked. -/
theorem chain_first_failure_propagates_witness :
    (1 < chainFailing.length) ∧
    ((chainFailing.take 1).all (fun p => p.isEmptyOk) = true) ∧
    ((chainFailing.get ⟨1, by decide⟩).retrieveResult =
       Except.error "TransportError") ∧
    ((ChainCredentials.retrieve { providers := chainFailing }).1 =
       (Except.error "TransportError", List.range 2)) :=
  ⟨by decide, by decide, rfl,
   chain_first_failure_propagates chainFailing 1 "TransportError"
     (by decide) (by decide) rfl⟩

/-- C8: when every provider of the chain succeeds with empty credentials
— and in particular for the empty provider list — `retrieve()` resolves
successfully (it never rejects) to the anonymous credential constant,
after invoking every provider in order. -/
theorem chain_exhausted_resolves_anonymous {ε : Type}
    (ps : List (ChainProvider ε))
    (hall : ps.all (fun p => p.isEmptyOk) = true) :
    (ChainCredentials.retrieve { providers := ps }).1 =
      (Except.ok AnonymousCredentials, List.range ps.length) := by
  have h := chainRetrieveFrom_all_empty ps 0 hall
  simpa [ChainCredentials.retrieve, List.range_eq_range'] using h

/-- C8, concrete chain: two providers both succeeding with empty keys
(one of them the anonymous constant itself). -/
def chainAllEmpty : List (ChainProvider String) :=
  [ { retrieveResult := Except.ok AnonymousCredentials, isExpired := false },
    { retrieveResult :=
        Except.ok { accessKey := "", secretKey := "", sessionToken := none,
                    signerType := SignatureType.V4 },
      isExpired := true } ]

/-- C8, witness: the all-empty chain (and, a fortiori, the empty chain)
resolves to the anonymous constant. -/
theorem chain_exhausted_resolves_anonymous_witness :
    (chainAllEmpty.all (fun p => p.isEmptyOk) = true) ∧
    ((ChainCredentials.retrieve { providers := chainAllEmpty }).1 =
       (Except.ok AnonymousCredentials, List.range 2)) :=
  ⟨by decide,
   chain_exhausted_resolves_anonymous chainAllEmpty (by decide)⟩
